import Mathlib

/-!
Verification of the orthanc-jxl core pipeline: a shallow embedding of the
JPEG-XL codec wrapper (src/src/jxl_codec.cpp), the DICOM container accessor
(src/src/dicom_handler.cpp), the transcoding orchestrator (src/src/plugin.cpp)
and the configuration parser (src/src/config.cpp), together with theorems
settling the specified properties.

Byte buffers are modelled as List Nat (a byte is a Nat; byte-range bounds are
irrelevant to the verified properties).  The external libjxl bitstream engine
is modelled from the spec at its interface boundary; everything else is
translated from the source.
-/

-- ===========================================================================
-- Pixel formats and the format-info table (src/src/jxl_codec.cpp lines 52-87)
-- ===========================================================================

/-- The JxlDataType value stored in the format table (JXL_TYPE_UINT8 / UINT16). -/
inductive JxlDataType
  | uint8
  | uint16
deriving DecidableEq

/-- PixelFormat enumeration (src/src/jxl_codec.h lines 34-39). -/
inductive PixelFormat
  | Gray8
  | Gray16
  | RGB24
  | RGB48
deriving DecidableEq

/-- One row of the format table (src/src/jxl_codec.cpp lines 53-59). -/
structure PixelFormatInfo where
  bytesPerPixel : Nat
  numChannels : Nat
  bitsPerSample : Nat
  grayscale : Bool
  jxlType : JxlDataType
deriving DecidableEq

/-- The kFormatInfo table (src/src/jxl_codec.cpp lines 61-66), indexed by the
PixelFormat variant exactly as GetFormatInfo does. -/
def kFormatInfo : PixelFormat → PixelFormatInfo
  | PixelFormat.Gray8  => ⟨1, 1, 8,  true,  JxlDataType.uint8⟩
  | PixelFormat.Gray16 => ⟨2, 1, 16, true,  JxlDataType.uint16⟩
  | PixelFormat.RGB24  => ⟨3, 3, 8,  false, JxlDataType.uint8⟩
  | PixelFormat.RGB48  => ⟨6, 3, 16, false, JxlDataType.uint16⟩

/-- JxlCodec::BytesPerPixel (src/src/jxl_codec.cpp line 73). -/
def JxlCodec.BytesPerPixel (format : PixelFormat) : Nat :=
  (kFormatInfo format).bytesPerPixel

/-- JxlCodec::NumChannels (src/src/jxl_codec.cpp line 74). -/
def JxlCodec.NumChannels (format : PixelFormat) : Nat :=
  (kFormatInfo format).numChannels

/-- JxlCodec::BitsPerSample (src/src/jxl_codec.cpp line 75). -/
def JxlCodec.BitsPerSample (format : PixelFormat) : Nat :=
  (kFormatInfo format).bitsPerSample

/-- JxlCodec::IsGrayscale (src/src/jxl_codec.cpp line 76). -/
def JxlCodec.IsGrayscale (format : PixelFormat) : Bool :=
  (kFormatInfo format).grayscale

/-- ImageInfo produced by decoding a stream header (src/src/jxl_codec.h lines 63-69). -/
structure ImageInfo where
  width : Nat
  height : Nat
  bitsPerSample : Nat
  numChannels : Nat
  isGrayscale : Bool
deriving DecidableEq

/-- JxlCodec::FormatFromImageInfo (src/src/jxl_codec.cpp lines 78-83). -/
def JxlCodec.FormatFromImageInfo (info : ImageInfo) : PixelFormat :=
  if info.isGrayscale then
    (if info.bitsPerSample ≤ 8 then PixelFormat.Gray8 else PixelFormat.Gray16)
  else
    (if info.bitsPerSample ≤ 8 then PixelFormat.RGB24 else PixelFormat.RGB48)

/-- The encode input buffer size computed at src/src/jxl_codec.cpp line 214. -/
def encodeInputSize (width height : Nat) (format : PixelFormat) : Nat :=
  width * height * JxlCodec.BytesPerPixel format

/-- The decode output buffer size computed at src/src/jxl_codec.cpp lines 362-363. -/
def decodeOutputBufferSize (width height : Nat) (outputFormat : PixelFormat) : Nat :=
  width * height * JxlCodec.BytesPerPixel outputFormat

-- ===========================================================================
-- Encode options (src/src/jxl_codec.h lines 41-61, jxl_codec.cpp lines 34-46)
-- ===========================================================================

/-- EncodeMode enumeration (src/src/jxl_codec.h lines 41-45). -/
inductive EncodeMode
  | Lossless
  | ProgressiveLossless
  | ProgressiveVarDCT
deriving DecidableEq

/-- EncodeOptions (src/src/jxl_codec.h lines 47-61); the float distance field is
modelled as a rational. -/
structure EncodeOptions where
  mode : EncodeMode
  effort : Int
  centerX : Int
  centerY : Int
  progressiveDC : Int
  progressiveAC : Bool
  distance : Rat
deriving DecidableEq

/-- EncodeOptions::Lossless (src/src/jxl_codec.cpp lines 34-36): aggregate
initialization with the remaining fields at their member defaults. -/
def EncodeOptions.Lossless (effort : Int) : EncodeOptions :=
  ⟨EncodeMode.Lossless, effort, -1, -1, 0, false, 0⟩

/-- EncodeOptions::ProgressiveLossless (src/src/jxl_codec.cpp lines 38-40). -/
def EncodeOptions.ProgressiveLossless (effort centerX centerY : Int) : EncodeOptions :=
  ⟨EncodeMode.ProgressiveLossless, effort, centerX, centerY, 0, false, 0⟩

/-- EncodeOptions::ProgressiveVarDCT (src/src/jxl_codec.cpp lines 42-46). -/
def EncodeOptions.ProgressiveVarDCT (effort : Int) (distance : Rat)
    (centerX centerY progressiveDC : Int) (progressiveAC : Bool) : EncodeOptions :=
  ⟨EncodeMode.ProgressiveVarDCT, effort, centerX, centerY, progressiveDC, progressiveAC, distance⟩

-- ===========================================================================
-- Frame settings configured by Encode (src/src/jxl_codec.cpp lines 154-204)
-- ===========================================================================

/-- The frame-level settings Encode applies to the encoder: the lossless flag,
frame distance, and the JxlEncoderFrameSettingsSetOption values (None for
options not set on that path), plus the effort applied to every mode. -/
structure FrameSettings where
  lossless : Bool
  distance : Rat
  modular : Option Int
  responsive : Option Int
  groupOrder : Option Int
  groupOrderCenterX : Option Int
  groupOrderCenterY : Option Int
  progressiveDC : Option Int
  progressiveAC : Option Int
  effort : Int
deriving DecidableEq

/-- The switch on options.mode in JxlCodec::Encode (src/src/jxl_codec.cpp
lines 154-204), followed by the unconditional effort setting (line 204). -/
def configureFrameSettings (options : EncodeOptions) : FrameSettings :=
  match options.mode with
  | EncodeMode.Lossless =>
      ⟨true, 0, some 1, some 0, none, none, none, none, none, options.effort⟩
  | EncodeMode.ProgressiveLossless =>
      ⟨true, 0, some 1, some 1, some 1, some options.centerX, some options.centerY,
       none, none, options.effort⟩
  | EncodeMode.ProgressiveVarDCT =>
      ⟨decide (options.distance = 0), options.distance, some 0, none, some 1,
       some options.centerX, some options.centerY, some options.progressiveDC,
       (if options.progressiveAC then some 1 else none), options.effort⟩

-- ===========================================================================
-- The codec bitstream, modelled at the interface boundary
-- ===========================================================================

/-- Modelled from the spec: the payload a lossy (VarDCT, distance greater than 0)
frame decodes to.  The spec only fixes its size (the lossy bound keeps the decoded
buffer size equal to the requested format's buffer size) and that its byte content
may differ from the input; the concrete transformation here is an arbitrary
length-preserving stand-in, relied on by no theorem. -/
def lossyPayload (pixels : List Nat) : List Nat :=
  pixels.map (fun x => 2 * (x / 2))

/-- Modelled from the spec: the JPEG-XL bitstream format itself lives in the
external libjxl library, not in this repository; the spec treats the codec as a
capability interface whose stream carries the basic-info header (dimensions, bit
depth, channel count, section 3 ImageInfo) followed by the frame payload, and
whose frames configured lossless (lossless flag set, distance 0, sections 4.1 and
8) reproduce the input samples exactly on decode. -/
def jxlBitstream (pixels : List Nat) (width height : Nat) (format : PixelFormat)
    (fs : FrameSettings) : List Nat :=
  width :: height :: JxlCodec.BitsPerSample format :: JxlCodec.NumChannels format ::
    (if fs.lossless then pixels else lossyPayload pixels)

/-- Status codes of JxlEncoderProcessOutput relevant to the Encode loop:
JXL_ENC_SUCCESS, JXL_ENC_NEED_MORE_OUTPUT, and every other value collapsed
into the error case (src/src/jxl_codec.cpp lines 232-242). -/
inductive JxlEncoderStatus
  | success
  | needMoreOutput
  | error
deriving DecidableEq

/-- Result of one JxlEncoderProcessOutput call: the updated output buffer
contents, the updated avail_out, the bitstream bytes still pending inside the
encoder, and the returned status. -/
structure ProcessOutputResult where
  content : List Nat
  availOut : Nat
  remaining : List Nat
  status : JxlEncoderStatus
deriving DecidableEq

/-- Modelled from the spec: JxlEncoderProcessOutput is part of the external
libjxl library.  Per its streaming contract (spec section 4.1, output
collection), a call writes pending bitstream bytes at the current write offset
into the space available, returns JXL_ENC_NEED_MORE_OUTPUT while bytes remain,
JXL_ENC_SUCCESS once all output is written, and an error status when the
encoder has failed (abstracted by the encFail flag). -/
def jxlEncoderProcessOutput (encFail : Bool) (content : List Nat)
    (offset avail : Nat) (remaining : List Nat) : ProcessOutputResult :=
  if encFail then
    ⟨content, avail, remaining, JxlEncoderStatus.error⟩
  else
    let k := min avail remaining.length
    ⟨content.take offset ++ remaining.take k ++ content.drop (offset + k),
     avail - k,
     remaining.drop k,
     if remaining.length ≤ avail then JxlEncoderStatus.success
     else JxlEncoderStatus.needMoreOutput⟩

/-- The output-collection loop of JxlCodec::Encode (src/src/jxl_codec.cpp lines
225-244), one iteration per fuel unit.  State: the result vector contents, its
size, and availOut (the write offset is size - availOut, the invariant the C++
code maintains through nextOut).  On success the vector is trimmed to
actualSize = size - availOut; on JXL_ENC_NEED_MORE_OUTPUT the vector is doubled
(std::vector resize zero-fills the extension) and writing resumes at
bytesWritten = size - availOut; on any other status the loop throws.  The C++
loop is unbounded; fuel only serves Lean totality and every theorem below
supplies enough of it. -/
def encodeLoopGo (encFail : Bool) :
    Nat → List Nat → Nat → Nat → List Nat → Except String (List Nat)
  | 0, _, _, _, _ => Except.error "Encoding failed with error: unbounded"
  | fuel + 1, content, size, avail, remaining =>
    let r := jxlEncoderProcessOutput encFail content (size - avail) avail remaining
    match r.status with
    | JxlEncoderStatus.success =>
        Except.ok (r.content.take (size - r.availOut))
    | JxlEncoderStatus.needMoreOutput =>
        let bytesWritten := size - r.availOut
        encodeLoopGo encFail fuel (r.content ++ List.replicate size 0) (size * 2)
          (size * 2 - bytesWritten) r.remaining
    | JxlEncoderStatus.error =>
        Except.error "Encoding failed with error"

/-- JxlCodec::Encode (src/src/jxl_codec.cpp lines 93-247).  The configuration
stages (basic info, color encoding, the frame-settings switch) are recorded by
configureFrameSettings; JxlEncoderAddImageFrame (line 217) fails unless the
supplied buffer holds exactly inputSize = width * height * bytesPerPixel bytes;
the output is then collected by the growable-buffer loop starting from a
64 KiB zero-initialized vector (line 225).  The encFail flag abstracts a
terminal error reported by the external encoder. -/
def JxlCodec.Encode (encFail : Bool) (pixelData : List Nat) (width height : Nat)
    (format : PixelFormat) (options : EncodeOptions) : Except String (List Nat) :=
  let fs := configureFrameSettings options
  if pixelData.length ≠ encodeInputSize width height format then
    Except.error "Failed to add image frame"
  else
    let bitstream := jxlBitstream pixelData width height format fs
    encodeLoopGo encFail (bitstream.length + 1) (List.replicate (64 * 1024) 0)
      (64 * 1024) (64 * 1024) bitstream

/-- JxlCodec::EncodeLossless (src/src/jxl_codec.cpp lines 249-254). -/
def JxlCodec.EncodeLossless (encFail : Bool) (pixelData : List Nat)
    (width height : Nat) (format : PixelFormat) (effort : Int) :
    Except String (List Nat) :=
  JxlCodec.Encode encFail pixelData width height format (EncodeOptions.Lossless effort)

/-- JxlCodec::EncodeProgressiveLossless (src/src/jxl_codec.cpp lines 256-262). -/
def JxlCodec.EncodeProgressiveLossless (encFail : Bool) (pixelData : List Nat)
    (width height : Nat) (format : PixelFormat) (effort centerX centerY : Int) :
    Except String (List Nat) :=
  JxlCodec.Encode encFail pixelData width height format
    (EncodeOptions.ProgressiveLossless effort centerX centerY)

-- ===========================================================================
-- Decoding (src/src/jxl_codec.cpp lines 268-423)
-- ===========================================================================

/-- JxlCodec::DecodeInfo (src/src/jxl_codec.cpp lines 268-304): subscribes only
to the basic-info event and returns the header fields; a stream too short to
produce a header is the incomplete-data failure.  The header layout is the
spec-modelled jxlBitstream one. -/
def JxlCodec.DecodeInfo (data : List Nat) : Except String ImageInfo :=
  match data with
  | w :: h :: bits :: ch :: _ =>
      Except.ok ⟨w, h, bits, ch, decide (ch = 1)⟩
  | _ => Except.error "Incomplete JXL data"

/-- JxlCodec::Decode (src/src/jxl_codec.cpp lines 314-402): the full event loop.
On the basic-info event the result buffer is sized to
width * height * bytesPerPixel(outputFormat); the decoder then fills it and the
loop returns it on the full-image event.  The external decode engine is
modelled from the spec: a lossless stream reproduces the encoded samples when
the requested format matches the stream's bit depth and channel count, and any
decoder-reported error or premature end of input is a failure. -/
def JxlCodec.Decode (data : List Nat) (outputFormat : PixelFormat) :
    Except String (List Nat) :=
  match data with
  | w :: h :: bits :: ch :: payload =>
      if bits = JxlCodec.BitsPerSample outputFormat ∧
         ch = JxlCodec.NumChannels outputFormat then
        if payload.length = decodeOutputBufferSize w h outputFormat then
          Except.ok payload
        else Except.error "Decoder error"
      else Except.error "Decoder error"
  | _ => Except.error "Incomplete JXL data"

/-- The auto-detecting JxlCodec::Decode overload (src/src/jxl_codec.cpp lines
411-417): DecodeInfo, then Decode at FormatFromImageInfo of the header. -/
def JxlCodec.DecodeAuto (data : List Nat) :
    Except String (List Nat × ImageInfo) :=
  match JxlCodec.DecodeInfo data with
  | Except.error e => Except.error e
  | Except.ok info =>
      match JxlCodec.Decode data (JxlCodec.FormatFromImageInfo info) with
      | Except.error e => Except.error e
      | Except.ok pixels => Except.ok (pixels, info)

-- ===========================================================================
-- Transfer syntax registry (src/src/transfer_syntax.h)
-- ===========================================================================

/-- TS_JPEG_XL_LOSSLESS (src/src/transfer_syntax.h line 26). -/
def TS_JPEG_XL_LOSSLESS : String := "1.2.840.10008.1.2.4.110"

/-- TS_JPEG_XL_JPEG_RECOMPRESSION (src/src/transfer_syntax.h line 27). -/
def TS_JPEG_XL_JPEG_RECOMPRESSION : String := "1.2.840.10008.1.2.4.111"

/-- TS_JPEG_XL (src/src/transfer_syntax.h line 28). -/
def TS_JPEG_XL : String := "1.2.840.10008.1.2.4.112"

/-- Modelled from the spec: the uncompressed transfer-syntax UID constants
TS_LITTLE_ENDIAN_EXPLICIT, TS_BIG_ENDIAN_EXPLICIT and TS_LITTLE_ENDIAN_IMPLICIT
are referenced by src/src/dicom_handler.cpp and src/src/plugin.cpp but declared
in a header absent from src/; spec section 6 names them as the native
little-endian-explicit, big-endian-explicit and little-endian-implicit
identifiers, which carry these standard UID values. -/
def TS_LITTLE_ENDIAN_EXPLICIT : String := "1.2.840.10008.1.2.1"

/-- Modelled from the spec: see TS_LITTLE_ENDIAN_EXPLICIT. -/
def TS_BIG_ENDIAN_EXPLICIT : String := "1.2.840.10008.1.2.2"

/-- Modelled from the spec: see TS_LITTLE_ENDIAN_EXPLICIT. -/
def TS_LITTLE_ENDIAN_IMPLICIT : String := "1.2.840.10008.1.2"

/-- IsJxlTransferSyntax (src/src/transfer_syntax.h lines 30-34). -/
def IsJxlTransferSyntaxUid (ts : String) : Bool :=
  ts == TS_JPEG_XL_LOSSLESS || ts == TS_JPEG_XL_JPEG_RECOMPRESSION || ts == TS_JPEG_XL

/-- Modelled from the spec: IsUncompressedTransferSyntax is called by
src/src/plugin.cpp line 144 but defined in a file absent from src/; spec
section 4.3 specifies it as the pure predicate true exactly on the
uncompressed little/big-endian identifiers. -/
def IsUncompressedTransferSyntaxUid (ts : String) : Bool :=
  ts == TS_LITTLE_ENDIAN_EXPLICIT || ts == TS_BIG_ENDIAN_EXPLICIT ||
    ts == TS_LITTLE_ENDIAN_IMPLICIT

-- ===========================================================================
-- The DICOM document model (src/src/dicom_handler.cpp)
-- ===========================================================================

/-- The meta header (DcmMetaInfo) restricted to the element this code touches:
the TransferSyntaxUID field, which may be absent. -/
structure DicomMetaInfo where
  transferSyntaxUid : Option String
deriving DecidableEq

/-- The two mutually exclusive physical representations of the pixel-data
element (spec section 3): a native byte run, or an encapsulated fragment
sequence tagged with the transfer syntax of its original representation
(fragment 0 being the Basic Offset Table). -/
inductive DicomPixelData
  | native (bytes : List Nat)
  | encapsulated (tsUid : String) (fragments : List (List Nat))
deriving DecidableEq

/-- The dataset restricted to the elements this code reads or writes; a None
field models an absent element (findAndGetUint16 then leaves the destination
at its zero initialization). -/
structure DicomDataset where
  rows : Option Nat
  cols : Option Nat
  bitsAllocated : Option Nat
  bitsStored : Option Nat
  highBit : Option Nat
  samplesPerPixel : Option Nat
  pixelRepresentation : Option Nat
  pixelData : Option DicomPixelData
deriving DecidableEq

/-- The in-memory parsed document (DcmFileFormat): meta header plus dataset.
DCMTK's getMetaInfo may return null, modelled by a None metaInfo. -/
structure DicomDocument where
  metaInfo : Option DicomMetaInfo
  dataset : DicomDataset
deriving DecidableEq

/-- DicomImageInfo (src/src/dicom_handler.h lines 37-45). -/
structure DicomImageInfo where
  width : Nat
  height : Nat
  bitsAllocated : Nat
  bitsStored : Nat
  highBit : Nat
  samplesPerPixel : Nat
  isSigned : Bool
deriving DecidableEq

/-- The DicomHandler constructor (src/src/dicom_handler.cpp lines 39-68).  A
null data pointer or zero size is rejected up front; otherwise the buffer is
read leniently: a bad read status only sets the parseWarning flag (readOk
and parsedDoc abstract the outcome of the DCMTK read of the input bytes,
parsedDoc none meaning no dataset was recovered, which is fatal).  The result
pairs the document with the parseWarning flag. -/
def DicomHandler.construct (dataIsNull : Bool) (size : Nat) (readOk : Bool)
    (parsedDoc : Option DicomDocument) : Except String (DicomDocument × Bool) :=
  if dataIsNull || size == 0 then
    Except.error "Invalid input DICOM data"
  else
    match parsedDoc with
    | none => Except.error "No dataset in DICOM file"
    | some doc => Except.ok (doc, !readOk)

/-- DicomHandler::GetImageInfo (src/src/dicom_handler.cpp lines 89-114):
missing elements yield the zero defaults of the local variables. -/
def DicomHandler.GetImageInfo (doc : DicomDocument) : DicomImageInfo :=
  { width := doc.dataset.cols.getD 0
    height := doc.dataset.rows.getD 0
    bitsAllocated := doc.dataset.bitsAllocated.getD 0
    bitsStored := doc.dataset.bitsStored.getD 0
    highBit := doc.dataset.highBit.getD 0
    samplesPerPixel := doc.dataset.samplesPerPixel.getD 0
    isSigned := decide (doc.dataset.pixelRepresentation.getD 0 ≠ 0) }

/-- DicomHandler::GetTransferSyntax (src/src/dicom_handler.cpp lines 116-129):
fails if the meta header is absent, or if the TransferSyntaxUID element cannot
be read from it. -/
def DicomHandler.GetTransferSyntaxUid (doc : DicomDocument) : Except String String :=
  match doc.metaInfo with
  | none => Except.error "No meta info in DICOM file"
  | some m =>
      match m.transferSyntaxUid with
      | none => Except.error "Failed to get transfer syntax UID"
      | some ts => Except.ok ts

/-- DicomHandler::GetPixelData (src/src/dicom_handler.cpp lines 135-152): the
native representation only; fails when the pixel element is absent or its raw
byte array cannot be materialized (getUint8Array yields no array for an
encapsulated-only element, and a null array for an empty one). -/
def DicomHandler.GetPixelData (doc : DicomDocument) : Except String (List Nat) :=
  match doc.dataset.pixelData with
  | none => Except.error "No pixel data found in DICOM file"
  | some (DicomPixelData.native bytes) =>
      if bytes = [] then Except.error "Failed to get pixel data array"
      else Except.ok bytes
  | some (DicomPixelData.encapsulated _ _) =>
      Except.error "Failed to get pixel data array"

/-- DicomHandler::GetEncapsulatedData (src/src/dicom_handler.cpp lines
154-195): requires the pixel element, requires its original representation to
be encapsulated, fetches sequence item frameIndex + 1 (skipping the offset
table at item 0), and rejects an empty fragment.  frameIndex is a uint32 and
the item index frameIndex + 1 is computed in uint32 arithmetic (line 178),
modelled by the explicit modulus: at frameIndex 4294967295 the index wraps to
the offset table at item 0. -/
def DicomHandler.GetEncapsulatedData (doc : DicomDocument) (frameIndex : Nat) :
    Except String (List Nat) :=
  match doc.dataset.pixelData with
  | none => Except.error "No pixel data found in DICOM file"
  | some (DicomPixelData.native _) =>
      Except.error "Failed to get encapsulated pixel data"
  | some (DicomPixelData.encapsulated _ fragments) =>
      match fragments[(frameIndex + 1) % 2 ^ 32]? with
      | none => Except.error "Failed to get pixel item for frame"
      | some fragment =>
          if fragment = [] then Except.error "Empty fragment data"
          else Except.ok fragment

/-- DicomHandler::SetJxlPixelData (src/src/dicom_handler.cpp lines 205-245):
rejects null/empty input, removes any existing pixel element, and inserts a
fresh encapsulated element whose original representation is
EXS_JPEGXLLossless with exactly two items: an empty offset table followed by
one fragment holding the supplied bytes. -/
def DicomHandler.SetJxlPixelData (doc : DicomDocument) (data : List Nat) :
    Except String DicomDocument :=
  if data = [] then Except.error "Invalid JXL data"
  else
    let element := DicomPixelData.encapsulated TS_JPEG_XL_LOSSLESS [[], data]
    Except.ok { doc with dataset := { doc.dataset with pixelData := some element } }

/-- DicomHandler::SetNativePixelData (src/src/dicom_handler.cpp lines
251-275): rejects null/empty input, removes any existing pixel element, and
inserts a fresh native (OtherByteOtherWord) element holding the bytes. -/
def DicomHandler.SetNativePixelData (doc : DicomDocument) (data : List Nat) :
    Except String DicomDocument :=
  if data = [] then Except.error "Invalid pixel data"
  else
    let element := DicomPixelData.native data
    Except.ok { doc with dataset := { doc.dataset with pixelData := some element } }

/-- DicomHandler::SetTransferSyntax (src/src/dicom_handler.cpp lines 277-286):
when the meta header is present, putAndInsertString overwrites the
TransferSyntaxUID field (failing only on an allocation-level error, which the
model excludes); when the meta header is absent the guard skips the write and
the call returns without error. -/
def DicomHandler.SetTransferSyntaxUid (doc : DicomDocument) (uid : String) :
    Except String DicomDocument :=
  match doc.metaInfo with
  | some _ => Except.ok { doc with metaInfo := some ⟨some uid⟩ }
  | none => Except.ok doc

/-- DicomHandler::WriteToBuffer (src/src/dicom_handler.cpp lines 292-349):
maps the target transfer syntax to DCMTK encoding parameters, failing on an
unrecognized one, and serializes the document.  The serialized bytes are
modelled by the document they parse back to; the representation-choosing step
for compressed syntaxes (lines 317-328) is the identity here because the model
keeps a single pixel-data representation. -/
def DicomHandler.WriteToBuffer (doc : DicomDocument) (transferSyntaxUid : String) :
    Except String DicomDocument :=
  if transferSyntaxUid = TS_JPEG_XL_LOSSLESS ∨
     transferSyntaxUid = TS_JPEG_XL_JPEG_RECOMPRESSION ∨
     transferSyntaxUid = TS_JPEG_XL ∨
     transferSyntaxUid = TS_LITTLE_ENDIAN_EXPLICIT ∨
     transferSyntaxUid = TS_BIG_ENDIAN_EXPLICIT ∨
     transferSyntaxUid = TS_LITTLE_ENDIAN_IMPLICIT then
    Except.ok doc
  else
    Except.error ("Unsupported transfer syntax: " ++ transferSyntaxUid)

-- ===========================================================================
-- Transcoding orchestrator (src/src/plugin.cpp lines 125-247)
-- ===========================================================================

/-- The three observable outcomes of the transcoder callback: a new container
(OrthancPluginErrorCode_Success with the transcoded buffer), not-applicable
(OrthancPluginErrorCode_NotImplemented), or a caught failure
(OrthancPluginErrorCode_Plugin). -/
inductive TranscodeResult
  | success (output : DicomDocument)
  | notImplemented
  | pluginFailure (msg : String)
deriving DecidableEq

/-- TranscoderCallback (src/src/plugin.cpp lines 125-247) at the document
level: the input container bytes are represented by the document they parse to
(the constructor's own failure modes are covered by DicomHandler.construct).
jxlRequested scans the allowed syntaxes for the JXL lossless UID;
uncompressedSyntax is the first allowed uncompressed UID.  Case 1 (FROM-JXL)
runs when the current syntax is a JXL one and an uncompressed target is
allowed; case 2 (TO-JXL) when JXL lossless is requested and the current syntax
is not a JXL one — encoding at effort 7 with center width/2, height/2;
otherwise the callback returns NotImplemented.  Every thrown error is caught
and becomes pluginFailure. -/
def TranscoderCallback (encFail : Bool) (doc : DicomDocument)
    (allowedSyntaxes : List String) : TranscodeResult :=
  let jxlRequested := allowedSyntaxes.any (fun s => s == TS_JPEG_XL_LOSSLESS)
  let uncompressedSyntax := allowedSyntaxes.find? (fun s => IsUncompressedTransferSyntaxUid s)
  match DicomHandler.GetTransferSyntaxUid doc with
  | Except.error e => TranscodeResult.pluginFailure e
  | Except.ok currentTs =>
    if IsJxlTransferSyntaxUid currentTs && uncompressedSyntax.isSome then
      match uncompressedSyntax with
      | none => TranscodeResult.notImplemented
      | some uncompressed =>
        match DicomHandler.GetEncapsulatedData doc 0 with
        | Except.error e => TranscodeResult.pluginFailure e
        | Except.ok jxlData =>
          match JxlCodec.DecodeAuto jxlData with
          | Except.error e => TranscodeResult.pluginFailure e
          | Except.ok (pixels, _) =>
            match DicomHandler.SetNativePixelData doc pixels with
            | Except.error e => TranscodeResult.pluginFailure e
            | Except.ok doc1 =>
              match DicomHandler.SetTransferSyntaxUid doc1 uncompressed with
              | Except.error e => TranscodeResult.pluginFailure e
              | Except.ok doc2 =>
                match DicomHandler.WriteToBuffer doc2 uncompressed with
                | Except.error e => TranscodeResult.pluginFailure e
                | Except.ok output => TranscodeResult.success output
    else if jxlRequested && !IsJxlTransferSyntaxUid currentTs then
      let info := DicomHandler.GetImageInfo doc
      match DicomHandler.GetPixelData doc with
      | Except.error e => TranscodeResult.pluginFailure e
      | Except.ok pixels =>
        let format :=
          if info.samplesPerPixel = 1 then
            (if info.bitsAllocated ≤ 8 then PixelFormat.Gray8 else PixelFormat.Gray16)
          else
            (if info.bitsAllocated ≤ 8 then PixelFormat.RGB24 else PixelFormat.RGB48)
        match JxlCodec.EncodeProgressiveLossless encFail pixels info.width info.height
            format 7 ((info.width / 2 : Nat) : Int) ((info.height / 2 : Nat) : Int) with
        | Except.error e => TranscodeResult.pluginFailure e
        | Except.ok jxlData =>
          match DicomHandler.SetJxlPixelData doc jxlData with
          | Except.error e => TranscodeResult.pluginFailure e
          | Except.ok doc1 =>
            match DicomHandler.SetTransferSyntaxUid doc1 TS_JPEG_XL_LOSSLESS with
            | Except.error e => TranscodeResult.pluginFailure e
            | Except.ok doc2 =>
              match DicomHandler.WriteToBuffer doc2 TS_JPEG_XL_LOSSLESS with
              | Except.error e => TranscodeResult.pluginFailure e
              | Except.ok output => TranscodeResult.success output
    else TranscodeResult.notImplemented

-- ===========================================================================
-- Configuration (src/src/config.h, src/src/config.cpp)
-- ===========================================================================

/-- PluginConfig (src/src/config.h lines 40-55). -/
structure PluginConfig where
  encodeOptions : EncodeOptions
  centerFirstOrdering : Bool
deriving DecidableEq

/-- PluginConfig::Default (src/src/config.cpp lines 38-43). -/
def PluginConfig.Default : PluginConfig :=
  ⟨EncodeOptions.ProgressiveLossless 7 (-1) (-1), true⟩

/-- The OrthancJxl configuration section with its recognized keys, each either
absent or holding a value of the type the code reads it at (a key at a wrong
JSON type throws inside the parse and is covered by the malformedJson input). -/
structure OrthancJxlSection where
  mode : Option String
  effort : Option Int
  distance : Option Rat
  centerFirstOrdering : Option Bool
  progressiveDC : Option Int
  progressiveAC : Option Bool
deriving DecidableEq

/-- The jsonConfig argument of PluginConfig::Parse: a null pointer, a string
json::parse rejects (or whose section has mistyped values, both throwing
json::exception), or parsed JSON with or without the OrthancJxl section. -/
inductive ConfigInput
  | nullInput
  | malformedJson
  | parsed (sec : Option OrthancJxlSection)
deriving DecidableEq

/-- PluginConfig::Parse (src/src/config.cpp lines 45-113): starts from the
default configuration; returns it unchanged for a null input, a parse error,
or a missing OrthancJxl section; otherwise applies each recognized option in
order, keeping the default whenever the value is out of range (effort outside
1..10, distance below 0, ProgressiveDC outside 0..2) or the mode string is
unrecognized. -/
def PluginConfig.Parse (input : ConfigInput) : PluginConfig :=
  match input with
  | ConfigInput.nullInput => PluginConfig.Default
  | ConfigInput.malformedJson => PluginConfig.Default
  | ConfigInput.parsed none => PluginConfig.Default
  | ConfigInput.parsed (some s) =>
    let config := PluginConfig.Default
    let config :=
      match s.mode with
      | some m =>
        if m = "Lossless" then
          { config with encodeOptions := { config.encodeOptions with mode := EncodeMode.Lossless } }
        else if m = "ProgressiveLossless" then
          { config with encodeOptions := { config.encodeOptions with mode := EncodeMode.ProgressiveLossless } }
        else if m = "ProgressiveVarDCT" then
          { config with encodeOptions := { config.encodeOptions with mode := EncodeMode.ProgressiveVarDCT } }
        else config
      | none => config
    let config :=
      match s.effort with
      | some e =>
        if 1 ≤ e ∧ e ≤ 10 then
          { config with encodeOptions := { config.encodeOptions with effort := e } }
        else config
      | none => config
    let config :=
      match s.distance with
      | some d =>
        if 0 ≤ d then
          { config with encodeOptions := { config.encodeOptions with distance := d } }
        else config
      | none => config
    let config :=
      match s.centerFirstOrdering with
      | some c => { config with centerFirstOrdering := c }
      | none => config
    let config :=
      match s.progressiveDC with
      | some dc =>
        if 0 ≤ dc ∧ dc ≤ 2 then
          { config with encodeOptions := { config.encodeOptions with progressiveDC := dc } }
        else config
      | none => config
    let config :=
      match s.progressiveAC with
      | some ac => { config with encodeOptions := { config.encodeOptions with progressiveAC := ac } }
      | none => config
    config

-- ===========================================================================
-- Helper lemmas: the encoder output loop
-- ===========================================================================

theorem encodeLoopGo_success_step (content remaining : List Nat) (size avail : Nat)
    (fuel : Nat) (hrem : remaining.length ≤ avail) (havail : avail ≤ size)
    (hlen : content.length = size) :
    encodeLoopGo false (fuel + 1) content size avail remaining
      = Except.ok (content.take (size - avail) ++ remaining) := by
  have hko : (content.take (size - avail)).length = size - avail := by
    rw [List.length_take]; omega
  simp only [encodeLoopGo, jxlEncoderProcessOutput, Bool.false_eq_true, if_false,
    if_pos hrem, Nat.min_eq_right hrem]
  have h1 : size - (avail - remaining.length) = (size - avail) + remaining.length := by omega
  have h2 : (content.take (size - avail) ++ remaining).length
      = (size - avail) + remaining.length := by
    simp [hko]
  rw [h1, List.take_of_length_le (le_of_eq rfl), List.take_left' h2]

theorem encodeLoopGo_needMore_step (content remaining : List Nat) (size avail : Nat)
    (fuel : Nat) (hrem : avail < remaining.length) (havail : avail ≤ size)
    (hlen : content.length = size) :
    encodeLoopGo false (fuel + 1) content size avail remaining
      = encodeLoopGo false fuel
          ((content.take (size - avail) ++ remaining.take avail) ++ List.replicate size 0)
          (size * 2) size (remaining.drop avail) := by
  have hd : content.drop (size - avail + avail) = [] :=
    List.drop_eq_nil_of_le (by omega)
  simp only [encodeLoopGo, jxlEncoderProcessOutput, Bool.false_eq_true, if_false,
    Nat.min_eq_left (le_of_lt hrem), if_neg (Nat.not_le.mpr hrem), hd,
    List.append_nil, Nat.sub_self, Nat.sub_zero]
  have h3 : size * 2 - size = size := by omega
  rw [h3]

theorem encodeLoopGo_drains :
    ∀ (fuel : Nat) (remaining content : List Nat) (size avail : Nat),
      remaining.length < fuel → 0 < avail → avail ≤ size → content.length = size →
      encodeLoopGo false fuel content size avail remaining
        = Except.ok (content.take (size - avail) ++ remaining) := by
  intro fuel
  induction fuel with
  | zero => intro remaining _ _ _ h _ _ _; omega
  | succ n ih =>
    intro remaining content size avail hfuel hpos hle hlen
    by_cases hrem : remaining.length ≤ avail
    · exact encodeLoopGo_success_step content remaining size avail n hrem hle hlen
    · push_neg at hrem
      rw [encodeLoopGo_needMore_step content remaining size avail n hrem hle hlen]
      have hlen' : ((content.take (size - avail) ++ remaining.take avail)
          ++ List.replicate size 0).length = size * 2 := by
        simp [List.length_take]; omega
      rw [ih (remaining.drop avail) _ (size * 2) size
        (by simp [List.length_drop]; omega) (by omega) (by omega) hlen']
      congr 1
      have h4 : size * 2 - size = size := by omega
      have h5 : (content.take (size - avail) ++ remaining.take avail).length = size := by
        simp [List.length_take]; omega
      rw [h4, List.take_left' h5, List.append_assoc]
      congr 1
      exact List.take_append_drop avail remaining

theorem encodeLoopGo_error_step (content remaining : List Nat) (size avail fuel : Nat) :
    encodeLoopGo true (fuel + 1) content size avail remaining
      = Except.error "Encoding failed with error" := by
  simp [encodeLoopGo, jxlEncoderProcessOutput]

theorem JxlCodec.Encode_ok (pixels : List Nat) (width height : Nat)
    (format : PixelFormat) (options : EncodeOptions)
    (hlen : pixels.length = encodeInputSize width height format) :
    JxlCodec.Encode false pixels width height format options
      = Except.ok (jxlBitstream pixels width height format (configureFrameSettings options)) := by
  unfold JxlCodec.Encode
  rw [if_neg (fun h => h hlen)]
  rw [encodeLoopGo_drains ((jxlBitstream pixels width height format
        (configureFrameSettings options)).length + 1)
      (jxlBitstream pixels width height format (configureFrameSettings options))
      (List.replicate (64 * 1024) 0) (64 * 1024) (64 * 1024)
      (Nat.lt_succ_self _) (by omega) (le_refl _) (List.length_replicate _ _)]
  rw [Nat.sub_self, List.take_zero, List.nil_append]

/-- C10: for every PixelFormat variant the kFormatInfo table satisfies
bytesPerPixel = numChannels * (bitsPerSample / 8), the helpers BytesPerPixel,
NumChannels, BitsPerSample and IsGrayscale return that variant's table row, and
the buffer-size computations of Encode (line 214) and Decode (lines 362-363)
both equal width * height * BytesPerPixel. -/
theorem format_info_table_invariant :
    ∀ format : PixelFormat,
      (kFormatInfo format).bytesPerPixel
          = (kFormatInfo format).numChannels * ((kFormatInfo format).bitsPerSample / 8)
        ∧ JxlCodec.BytesPerPixel format = (kFormatInfo format).bytesPerPixel
        ∧ JxlCodec.NumChannels format = (kFormatInfo format).numChannels
        ∧ JxlCodec.BitsPerSample format = (kFormatInfo format).bitsPerSample
        ∧ JxlCodec.IsGrayscale format = (kFormatInfo format).grayscale
        ∧ ∀ width height : Nat,
            encodeInputSize width height format = width * height * JxlCodec.BytesPerPixel format
              ∧ decodeOutputBufferSize width height format
                  = width * height * JxlCodec.BytesPerPixel format := by
  intro format
  cases format <;> exact ⟨rfl, rfl, rfl, rfl, rfl, fun _ _ => ⟨rfl, rfl⟩⟩

/-- C6: in the Encode output-collection loop, a JXL_ENC_NEED_MORE_OUTPUT status
doubles the buffer capacity, preserves the count and content of the bytes
already written (they form the preserved prefix of the doubled buffer) and
resumes writing at the prior offset; JXL_ENC_SUCCESS trims the result to
exactly the bytes written; any other status raises an error, returning no
partial buffer. -/
theorem encode_output_loop_spec :
    (∀ (fuel : Nat) (content remaining : List Nat) (size avail : Nat),
        avail < remaining.length → avail ≤ size → content.length = size →
        encodeLoopGo false (fuel + 1) content size avail remaining
            = encodeLoopGo false fuel
                ((content.take (size - avail) ++ remaining.take avail) ++ List.replicate size 0)
                (size * 2) size (remaining.drop avail)
          ∧ (((content.take (size - avail) ++ remaining.take avail) ++ List.replicate size 0).take size
              = content.take (size - avail) ++ remaining.take avail))
    ∧ (∀ (fuel : Nat) (content remaining : List Nat) (size avail : Nat),
        remaining.length ≤ avail → avail ≤ size → content.length = size →
        encodeLoopGo false (fuel + 1) content size avail remaining
          = Except.ok (content.take (size - avail) ++ remaining))
    ∧ (∀ (fuel : Nat) (content remaining : List Nat) (size avail : Nat),
        encodeLoopGo true (fuel + 1) content size avail remaining
          = Except.error "Encoding failed with error") := by
  refine ⟨fun fuel content remaining size avail hrem hle hlen => ⟨?_, ?_⟩,
    fun fuel content remaining size avail hrem hle hlen =>
      encodeLoopGo_success_step content remaining size avail fuel hrem hle hlen,
    fun fuel content remaining size avail =>
      encodeLoopGo_error_step content remaining size avail fuel⟩
  · exact encodeLoopGo_needMore_step content remaining size avail fuel hrem hle hlen
  · refine List.take_left' ?_
    simp [List.length_take]
    omega

theorem encode_output_loop_spec_witness :
    (encodeLoopGo false 2 [0, 0] 2 2 [9, 8, 7]
        = encodeLoopGo false 1 (([0, 0].take (2 - 2) ++ [9, 8, 7].take 2) ++ List.replicate 2 0)
            (2 * 2) 2 ([9, 8, 7].drop 2)
      ∧ (([0, 0].take (2 - 2) ++ [9, 8, 7].take 2) ++ List.replicate 2 0).take 2
          = [0, 0].take (2 - 2) ++ [9, 8, 7].take 2)
    ∧ encodeLoopGo false 1 [0, 0] 2 2 [9]
        = Except.ok ([0, 0].take (2 - 2) ++ [9])
    ∧ encodeLoopGo true 1 [0, 0] 2 2 [9]
        = Except.error "Encoding failed with error" :=
  ⟨encode_output_loop_spec.1 1 [0, 0] [9, 8, 7] 2 2 (by decide) (by decide) (by decide),
   encode_output_loop_spec.2.1 0 [0, 0] [9] 2 2 (by decide) (by decide) (by decide),
   encode_output_loop_spec.2.2 0 [0, 0] [9] 2 2⟩

/-- C1: for every raw pixel buffer of size width * height * bytesPerPixel(format)
with positive dimensions, every pixel format, every effort in 1..10 and encode
mode Lossless or ProgressiveLossless, decoding the encoded stream at the same
format returns the input bytes exactly. -/
theorem jxl_lossless_roundtrip (pixels : List Nat) (width height : Nat)
    (format : PixelFormat) (options : EncodeOptions)
    (hw : 0 < width) (hh : 0 < height)
    (heffort1 : 1 ≤ options.effort) (heffort2 : options.effort ≤ 10)
    (hmode : options.mode = EncodeMode.Lossless ∨ options.mode = EncodeMode.ProgressiveLossless)
    (hlen : pixels.length = width * height * JxlCodec.BytesPerPixel format) :
    (JxlCodec.Encode false pixels width height format options).bind
      (fun encoded => JxlCodec.Decode encoded format) = Except.ok pixels := by
  rw [JxlCodec.Encode_ok pixels width height format options hlen]
  have hfs : (configureFrameSettings options).lossless = true := by
    rcases hmode with h | h <;> simp [configureFrameSettings, h]
  simp [Except.bind, jxlBitstream, hfs, JxlCodec.Decode, decodeOutputBufferSize, hlen]

theorem jxl_lossless_roundtrip_witness :
    (JxlCodec.Encode false [5] 1 1 PixelFormat.Gray8 (EncodeOptions.Lossless 7)).bind
      (fun encoded => JxlCodec.Decode encoded PixelFormat.Gray8) = Except.ok [5] :=
  jxl_lossless_roundtrip [5] 1 1 PixelFormat.Gray8 (EncodeOptions.Lossless 7)
    (by decide) (by decide) (by decide) (by decide) (Or.inl rfl) (by decide)

-- ===========================================================================
-- Concrete documents used by witnesses and counterexamples
-- ===========================================================================

/-- A dataset with every modelled element absent. -/
def emptyDataset : DicomDataset := ⟨none, none, none, none, none, none, none, none⟩

/-- A parsed document without a meta header. -/
def noMetaDoc : DicomDocument := ⟨none, emptyDataset⟩

/-- C2 (amended): when the meta header is present, SetTransferSyntax overwrites
its TransferSyntaxUID field; when the meta header is absent the call silently
returns success without touching the document — it does not fail. -/
theorem set_transfer_syntax_uid_behavior (doc : DicomDocument) (uid : String) :
    (doc.metaInfo = none →
        DicomHandler.SetTransferSyntaxUid doc uid = Except.ok doc)
    ∧ (∀ m : DicomMetaInfo, doc.metaInfo = some m →
        DicomHandler.SetTransferSyntaxUid doc uid
          = Except.ok { doc with metaInfo := some ⟨some uid⟩ }) := by
  constructor
  · intro h
    simp [DicomHandler.SetTransferSyntaxUid, h]
  · intro m h
    simp [DicomHandler.SetTransferSyntaxUid, h]

theorem set_transfer_syntax_uid_behavior_witness :
    DicomHandler.SetTransferSyntaxUid ⟨some ⟨some TS_LITTLE_ENDIAN_EXPLICIT⟩, emptyDataset⟩
        TS_JPEG_XL_LOSSLESS
      = Except.ok ⟨some ⟨some TS_JPEG_XL_LOSSLESS⟩, emptyDataset⟩ :=
  (set_transfer_syntax_uid_behavior ⟨some ⟨some TS_LITTLE_ENDIAN_EXPLICIT⟩, emptyDataset⟩
    TS_JPEG_XL_LOSSLESS).2 ⟨some TS_LITTLE_ENDIAN_EXPLICIT⟩ rfl

/-- C2 counterexample: on a parsed document without a meta header,
SetTransferSyntax succeeds with the document unchanged instead of failing. -/
theorem set_transfer_syntax_uid_counterexample :
    noMetaDoc.metaInfo = none
      ∧ DicomHandler.SetTransferSyntaxUid noMetaDoc TS_JPEG_XL_LOSSLESS
          = Except.ok noMetaDoc
      ∧ (DicomHandler.SetTransferSyntaxUid noMetaDoc TS_JPEG_XL_LOSSLESS).isOk = true :=
  ⟨rfl, rfl, rfl⟩

/-- C4: after SetJxlPixelData succeeds, the pixel element holds an encapsulated
representation with exactly two fragments — fragment 0 a zero-length offset
table, fragment 1 the supplied bytes verbatim — and it replaces whatever pixel
element the dataset previously held. -/
theorem set_jxl_pixel_data_encapsulation (doc : DicomDocument) (data : List Nat)
    (hne : data ≠ []) :
    ∃ fragments : List (List Nat),
      DicomHandler.SetJxlPixelData doc data
          = Except.ok { doc with dataset :=
              { doc.dataset with pixelData :=
                  (some (DicomPixelData.encapsulated TS_JPEG_XL_LOSSLESS fragments)) } }
        ∧ fragments.length = 2
        ∧ fragments[0]? = some []
        ∧ fragments[1]? = some data := by
  refine ⟨[[], data], ?_, rfl, rfl, rfl⟩
  simp [DicomHandler.SetJxlPixelData, hne]

theorem set_jxl_pixel_data_encapsulation_witness :
    ∃ fragments : List (List Nat),
      DicomHandler.SetJxlPixelData
          ⟨some ⟨some TS_LITTLE_ENDIAN_EXPLICIT⟩,
           { emptyDataset with pixelData := some (DicomPixelData.native [1, 2, 3]) }⟩ [7, 7]
          = Except.ok ⟨some ⟨some TS_LITTLE_ENDIAN_EXPLICIT⟩,
              { emptyDataset with pixelData :=
                  (some (DicomPixelData.encapsulated TS_JPEG_XL_LOSSLESS fragments)) }⟩
        ∧ fragments.length = 2
        ∧ fragments[0]? = some []
        ∧ fragments[1]? = some [7, 7] :=
  set_jxl_pixel_data_encapsulation
    ⟨some ⟨some TS_LITTLE_ENDIAN_EXPLICIT⟩,
     { emptyDataset with pixelData := some (DicomPixelData.native [1, 2, 3]) }⟩ [7, 7]
    (by decide)

/-- C8 (amended): GetEncapsulatedData returns the bytes of fragment
(frameIndex + 1) mod 2^32 — the uint32 item index — of the pixel element's
encapsulated representation, and fails with an error — producing no output —
when the pixel element is absent, its representation is not encapsulated, the
item at that wrapped index is absent, or the fragment is empty.  For every
frameIndex below 4294967295 the wrapped index is frameIndex + 1 and this is
the claimed skip-the-offset-table behavior; at frameIndex 4294967295 the index
wraps to item 0 (see the counterexample). -/
theorem get_encapsulated_data_spec (doc : DicomDocument) (frameIndex : Nat) :
    (doc.dataset.pixelData = none →
        DicomHandler.GetEncapsulatedData doc frameIndex
          = Except.error "No pixel data found in DICOM file")
    ∧ (∀ bytes, doc.dataset.pixelData = some (DicomPixelData.native bytes) →
        DicomHandler.GetEncapsulatedData doc frameIndex
          = Except.error "Failed to get encapsulated pixel data")
    ∧ (∀ ts fragments,
        doc.dataset.pixelData = some (DicomPixelData.encapsulated ts fragments) →
        (fragments[(frameIndex + 1) % 2 ^ 32]? = none →
            DicomHandler.GetEncapsulatedData doc frameIndex
              = Except.error "Failed to get pixel item for frame")
          ∧ (∀ fragment, fragments[(frameIndex + 1) % 2 ^ 32]? = some fragment →
              (fragment = [] →
                  DicomHandler.GetEncapsulatedData doc frameIndex
                    = Except.error "Empty fragment data")
                ∧ (fragment ≠ [] →
                    DicomHandler.GetEncapsulatedData doc frameIndex
                      = Except.ok fragment))) := by
  refine ⟨fun h => by simp [DicomHandler.GetEncapsulatedData, h],
    fun bytes h => by simp [DicomHandler.GetEncapsulatedData, h],
    fun ts fragments h => ⟨fun hnone => ?_, fun fragment hsome => ⟨fun hnil => ?_, fun hne => ?_⟩⟩⟩
  · have hnone' : fragments[(frameIndex + 1) % 4294967296]? = none := hnone
    simp [DicomHandler.GetEncapsulatedData, h, hnone']
  · have hsome' : fragments[(frameIndex + 1) % 4294967296]? = some fragment := hsome
    simp [DicomHandler.GetEncapsulatedData, h, hsome', hnil]
  · have hsome' : fragments[(frameIndex + 1) % 4294967296]? = some fragment := hsome
    simp [DicomHandler.GetEncapsulatedData, h, hsome', hne]

theorem get_encapsulated_data_spec_witness :
    DicomHandler.GetEncapsulatedData
        ⟨some ⟨some TS_JPEG_XL_LOSSLESS⟩,
         { emptyDataset with pixelData :=
             (some (DicomPixelData.encapsulated TS_JPEG_XL_LOSSLESS [[], [3, 4]])) }⟩ 0
      = Except.ok [3, 4] :=
  (((get_encapsulated_data_spec
      ⟨some ⟨some TS_JPEG_XL_LOSSLESS⟩,
       { emptyDataset with pixelData :=
           (some (DicomPixelData.encapsulated TS_JPEG_XL_LOSSLESS [[], [3, 4]])) }⟩ 0).2.2
    TS_JPEG_XL_LOSSLESS [[], [3, 4]] rfl).2 [3, 4] rfl).2 (by decide)

/-- An encapsulated document whose Basic Offset Table (item 0) is populated
with four offset bytes, as parsed from a multi-frame encapsulated file. -/
def populatedOffsetTableDoc : DicomDocument :=
  ⟨some ⟨some TS_JPEG_XL_LOSSLESS⟩,
   { emptyDataset with pixelData :=
       (some (DicomPixelData.encapsulated TS_JPEG_XL_LOSSLESS [[0, 0, 0, 0], [9, 9]])) }⟩

/-- C8 counterexample: at frameIndex 4294967295 the uint32 item index
frameIndex + 1 wraps to 0, so GetEncapsulatedData returns the populated offset
table's bytes — output is produced even though the fragment item the claim
asks for (number 4294967296, beyond the stored fragments) is absent. -/
theorem get_encapsulated_data_counterexample :
    DicomHandler.GetEncapsulatedData populatedOffsetTableDoc 4294967295
        = Except.ok [0, 0, 0, 0]
      ∧ ([[0, 0, 0, 0], [9, 9]] : List (List Nat))[(4294967295 + 1 : Nat)]? = none := by
  refine ⟨rfl, by decide⟩

/-- C9: the constructor rejects a null data pointer or a zero size with the
distinct "Invalid input DICOM data" error before any parsing: for such inputs
the outcome is that error whatever the read would have produced, so no
document is constructed and no lenient-parse warning state is reachable. -/
theorem constructor_rejects_invalid_input (dataIsNull : Bool) (size : Nat)
    (readOk : Bool) (parsedDoc : Option DicomDocument)
    (hbad : dataIsNull = true ∨ size = 0) :
    DicomHandler.construct dataIsNull size readOk parsedDoc
      = Except.error "Invalid input DICOM data" := by
  rcases hbad with h | h <;> simp [DicomHandler.construct, h]

theorem constructor_rejects_invalid_input_witness :
    DicomHandler.construct false 0 true (some noMetaDoc)
      = Except.error "Invalid input DICOM data" :=
  constructor_rejects_invalid_input false 0 true (some noMetaDoc) (Or.inr rfl)

/-- C7: PluginConfig::Parse never fails: a null input, non-JSON input, or input
without the OrthancJxl section yields the default configuration (mode
ProgressiveLossless, effort 7, centerFirstOrdering true), and each individually
out-of-range option value (effort outside 1..10, distance below 0,
ProgressiveDC outside 0..2) keeps that option's default while the other
recognized options are still applied — parsing such a section is exactly like
parsing it with the bad key absent. -/
theorem plugin_config_parse_leniency :
    PluginConfig.Parse ConfigInput.nullInput = PluginConfig.Default
    ∧ PluginConfig.Parse ConfigInput.malformedJson = PluginConfig.Default
    ∧ PluginConfig.Parse (ConfigInput.parsed none) = PluginConfig.Default
    ∧ PluginConfig.Default
        = ⟨⟨EncodeMode.ProgressiveLossless, 7, -1, -1, 0, false, 0⟩, true⟩
    ∧ (∀ (s : OrthancJxlSection) (e : Int), s.effort = some e → ¬(1 ≤ e ∧ e ≤ 10) →
        PluginConfig.Parse (ConfigInput.parsed (some s))
          = PluginConfig.Parse (ConfigInput.parsed (some { s with effort := none })))
    ∧ (∀ (s : OrthancJxlSection) (d : Rat), s.distance = some d → d < 0 →
        PluginConfig.Parse (ConfigInput.parsed (some s))
          = PluginConfig.Parse (ConfigInput.parsed (some { s with distance := none })))
    ∧ (∀ (s : OrthancJxlSection) (dc : Int), s.progressiveDC = some dc → ¬(0 ≤ dc ∧ dc ≤ 2) →
        PluginConfig.Parse (ConfigInput.parsed (some s))
          = PluginConfig.Parse (ConfigInput.parsed (some { s with progressiveDC := none }))) := by
  refine ⟨rfl, rfl, rfl, rfl, ?_, ?_, ?_⟩
  · intro s e he hrange
    obtain ⟨m, ef, d, c, dc, ac⟩ := s
    simp only at he
    subst he
    simp [PluginConfig.Parse, hrange]
  · intro s d hd hrange
    obtain ⟨m, ef, dd, c, dc, ac⟩ := s
    simp only at hd
    subst hd
    simp [PluginConfig.Parse, not_le.mpr hrange]
  · intro s dc hdc hrange
    obtain ⟨m, ef, d, c, dcf, ac⟩ := s
    simp only at hdc
    subst hdc
    simp [PluginConfig.Parse, hrange]

theorem plugin_config_parse_leniency_witness :
    PluginConfig.Parse (ConfigInput.parsed
        (some ⟨some "Lossless", some 99, some 1, some false, some 1, some true⟩))
      = PluginConfig.Parse (ConfigInput.parsed
        (some ⟨some "Lossless", none, some 1, some false, some 1, some true⟩)) :=
  plugin_config_parse_leniency.2.2.2.2.1
    ⟨some "Lossless", some 99, some 1, some false, some 1, some true⟩ 99 rfl (by decide)

-- ===========================================================================
-- C3: the not-applicable branch of the transcoder
-- ===========================================================================

/-- A parsed JXL container: meta header declaring the JXL lossless syntax, and
an encapsulated payload whose single frame is a valid one-pixel Gray8 stream. -/
def jxlEncapsulatedDoc : DicomDocument :=
  ⟨some ⟨some TS_JPEG_XL_LOSSLESS⟩,
   { emptyDataset with pixelData :=
       (some (DicomPixelData.encapsulated TS_JPEG_XL_LOSSLESS [[], [1, 1, 8, 1, 42]])) }⟩

/-- C3 (amended): when the container's current identifier is in the requested
set and the requested set triggers neither transcode direction — it holds no
uncompressed identifier when the current one is a codec identifier, and does
not hold the codec lossless identifier when the current one is not — the
callback signals not-applicable, not an error, and produces no output (the
input buffer is const and is never mutated).  When the requested set does hold
such a direction-triggering identifier the code transcodes instead, even
though the current identifier was acceptable (see the counterexample). -/
theorem transcode_not_applicable (encFail : Bool) (doc : DicomDocument)
    (currentTs : String) (allowedSyntaxes : List String)
    (hts : DicomHandler.GetTransferSyntaxUid doc = Except.ok currentTs)
    (hmem : currentTs ∈ allowedSyntaxes)
    (h1 : ¬(IsJxlTransferSyntaxUid currentTs = true
            ∧ ∃ u ∈ allowedSyntaxes, IsUncompressedTransferSyntaxUid u = true))
    (h2 : ¬(TS_JPEG_XL_LOSSLESS ∈ allowedSyntaxes
            ∧ IsJxlTransferSyntaxUid currentTs = false)) :
    TranscoderCallback encFail doc allowedSyntaxes = TranscodeResult.notImplemented := by
  have g1 : (IsJxlTransferSyntaxUid currentTs
      && (allowedSyntaxes.find? (fun s => IsUncompressedTransferSyntaxUid s)).isSome)
        = false := by
    by_cases hj : IsJxlTransferSyntaxUid currentTs = true
    · have hall : ∀ u ∈ allowedSyntaxes, ¬(IsUncompressedTransferSyntaxUid u = true) :=
        fun u hu hcontra => h1 ⟨hj, u, hu, hcontra⟩
      have hfind : allowedSyntaxes.find? (fun s => IsUncompressedTransferSyntaxUid s) = none :=
        List.find?_eq_none.mpr hall
      simp [hfind]
    · simp [Bool.not_eq_true] at hj
      simp [hj]
  have g2 : (allowedSyntaxes.any (fun s => s == TS_JPEG_XL_LOSSLESS)
      && !IsJxlTransferSyntaxUid currentTs) = false := by
    by_cases hj : IsJxlTransferSyntaxUid currentTs = true
    · simp [hj]
    · simp [Bool.not_eq_true] at hj
      have hnotmem : ¬(TS_JPEG_XL_LOSSLESS ∈ allowedSyntaxes) :=
        fun hmem2 => h2 ⟨hmem2, hj⟩
      have hany : allowedSyntaxes.any (fun s => s == TS_JPEG_XL_LOSSLESS) = false := by
        rw [List.any_eq_false]
        intro x hx hbeq
        rw [beq_iff_eq] at hbeq
        exact hnotmem (hbeq ▸ hx)
      simp [hany]
  simp only [TranscoderCallback, hts, g1, g2, Bool.false_eq_true, if_false]

theorem transcode_not_applicable_witness :
    TranscoderCallback false jxlEncapsulatedDoc [TS_JPEG_XL_LOSSLESS]
      = TranscodeResult.notImplemented :=
  transcode_not_applicable false jxlEncapsulatedDoc TS_JPEG_XL_LOSSLESS
    [TS_JPEG_XL_LOSSLESS] rfl (by decide) (by decide) (by decide)

/-- C3 counterexample: a container whose identifier (the JXL lossless UID) is
itself in the requested set is nevertheless transcoded — to the also-requested
native little-endian-explicit syntax — rather than answered not-applicable. -/
theorem transcode_not_applicable_counterexample :
    DicomHandler.GetTransferSyntaxUid jxlEncapsulatedDoc = Except.ok TS_JPEG_XL_LOSSLESS
    ∧ TS_JPEG_XL_LOSSLESS ∈ [TS_JPEG_XL_LOSSLESS, TS_LITTLE_ENDIAN_EXPLICIT]
    ∧ TranscoderCallback false jxlEncapsulatedDoc
        [TS_JPEG_XL_LOSSLESS, TS_LITTLE_ENDIAN_EXPLICIT]
        = TranscodeResult.success
            ⟨some ⟨some TS_LITTLE_ENDIAN_EXPLICIT⟩,
             { emptyDataset with pixelData := (some (DicomPixelData.native [42])) }⟩
    ∧ TranscoderCallback false jxlEncapsulatedDoc
        [TS_JPEG_XL_LOSSLESS, TS_LITTLE_ENDIAN_EXPLICIT]
        ≠ TranscodeResult.notImplemented := by
  refine ⟨rfl, by decide, by decide, by decide⟩

-- ===========================================================================
-- C5: the native-to-JXL transcode direction
-- ===========================================================================

/-- C5: for a well-formed container whose identifier is not a codec one, when
the requested set holds the codec's lossless identifier the callback encodes
the native pixels in ProgressiveLossless mode at the fixed default effort 7
with center coordinates width / 2 and height / 2, and the resulting container
carries the lossless identifier with an encapsulated two-fragment payload. -/
theorem transcode_to_jxl_spec (doc : DicomDocument) (allowedSyntaxes : List String)
    (currentTs : String) (w h spp ba : Nat) (px : List Nat) (format : PixelFormat)
    (hts : DicomHandler.GetTransferSyntaxUid doc = Except.ok currentTs)
    (hnotjxl : IsJxlTransferSyntaxUid currentTs = false)
    (hreq : TS_JPEG_XL_LOSSLESS ∈ allowedSyntaxes)
    (hcols : doc.dataset.cols = some w)
    (hrows : doc.dataset.rows = some h)
    (hspp : doc.dataset.samplesPerPixel = some spp)
    (hba : doc.dataset.bitsAllocated = some ba)
    (hpx : doc.dataset.pixelData = some (DicomPixelData.native px))
    (hpxne : px ≠ [])
    (hfmt : format
      = (if spp = 1 then (if ba ≤ 8 then PixelFormat.Gray8 else PixelFormat.Gray16)
         else (if ba ≤ 8 then PixelFormat.RGB24 else PixelFormat.RGB48)))
    (hlen : px.length = encodeInputSize w h format) :
    ∃ jxlBytes : List Nat,
      JxlCodec.EncodeProgressiveLossless false px w h format 7 ((w / 2 : Nat) : Int)
          ((h / 2 : Nat) : Int) = Except.ok jxlBytes
      ∧ TranscoderCallback false doc allowedSyntaxes
          = TranscodeResult.success
              ⟨some ⟨some TS_JPEG_XL_LOSSLESS⟩,
               { doc.dataset with pixelData :=
                   (some (DicomPixelData.encapsulated TS_JPEG_XL_LOSSLESS [[], jxlBytes])) }⟩ := by
  obtain ⟨m, hm⟩ : ∃ m, doc.metaInfo = some m := by
    cases hmi : doc.metaInfo with
    | none =>
        rw [DicomHandler.GetTransferSyntaxUid, hmi] at hts
        cases hts
    | some m => exact ⟨m, rfl⟩
  have henc : JxlCodec.EncodeProgressiveLossless false px w h format 7
      ((w / 2 : Nat) : Int) ((h / 2 : Nat) : Int)
        = Except.ok (jxlBitstream px w h format (configureFrameSettings
            (EncodeOptions.ProgressiveLossless 7 ((w / 2 : Nat) : Int) ((h / 2 : Nat) : Int)))) :=
    JxlCodec.Encode_ok px w h format
      (EncodeOptions.ProgressiveLossless 7 ((w / 2 : Nat) : Int) ((h / 2 : Nat) : Int)) hlen
  refine ⟨_, henc, ?_⟩
  have hany : allowedSyntaxes.any (fun s => s == TS_JPEG_XL_LOSSLESS) = true :=
    List.any_eq_true.mpr ⟨TS_JPEG_XL_LOSSLESS, hreq, by simp⟩
  have hbs : jxlBitstream px w h format (configureFrameSettings
      (EncodeOptions.ProgressiveLossless 7 ((w / 2 : Nat) : Int) ((h / 2 : Nat) : Int))) ≠ [] := by
    simp [jxlBitstream]
  simp only [TranscoderCallback, hts, hnotjxl, Bool.false_and, Bool.false_eq_true, if_false,
    hany, Bool.not_false, Bool.and_true, if_true,
    DicomHandler.GetImageInfo, hcols, hrows, hspp, hba, Option.getD_some,
    DicomHandler.GetPixelData, hpx, if_neg hpxne, ← hfmt, henc,
    DicomHandler.SetJxlPixelData, if_neg hbs,
    DicomHandler.SetTransferSyntaxUid, hm,
    DicomHandler.WriteToBuffer]
  simp

/-- A native little-endian-explicit 1 x 1 Gray8 container. -/
def nativeGray8Doc : DicomDocument :=
  ⟨some ⟨some TS_LITTLE_ENDIAN_EXPLICIT⟩,
   ⟨some 1, some 1, some 8, none, none, some 1, none,
    some (DicomPixelData.native [9])⟩⟩

theorem transcode_to_jxl_spec_witness :
    ∃ jxlBytes : List Nat,
      JxlCodec.EncodeProgressiveLossless false [9] 1 1 PixelFormat.Gray8 7
          ((1 / 2 : Nat) : Int) ((1 / 2 : Nat) : Int) = Except.ok jxlBytes
      ∧ TranscoderCallback false nativeGray8Doc [TS_JPEG_XL_LOSSLESS]
          = TranscodeResult.success
              ⟨some ⟨some TS_JPEG_XL_LOSSLESS⟩,
               { nativeGray8Doc.dataset with pixelData :=
                   (some (DicomPixelData.encapsulated TS_JPEG_XL_LOSSLESS [[], jxlBytes])) }⟩ :=
  transcode_to_jxl_spec nativeGray8Doc [TS_JPEG_XL_LOSSLESS] TS_LITTLE_ENDIAN_EXPLICIT
    1 1 1 8 [9] PixelFormat.Gray8 rfl (by decide) (by decide) rfl rfl rfl rfl rfl
    (by decide) (by decide) (by decide)
